import Mathlib

/-!
Shallow embedding of `src/Extension/src/LanguageServer/extension.ts`
(the activation / event-routing / command-dispatch layer of the
vscode-cpptools extension), together with theorems settling the spec
claims about it.

The module-level mutable state of the TypeScript file
(`activatedPreviously`, `realActivationOccurred`, `tempCommands`, ...)
is embedded as an explicit record `ExtState`, and each top-level
function that mutates it becomes a state transformer.  Side effects
that the claims observe (how many times `realActivation` ran, which
actions a command handler performs, which HTTP requests a download
issues) are recorded in counters and action traces.
-/

namespace Cpptools

/-- The module-level mutable activation state of `extension.ts`:
`activatedPreviously` is the persisted workspace flag, `tempCommands`
the array of temporary activation-watcher disposables, and
`realActivationOccurred` the in-process guard boolean.
`realActivationCount` counts how many times the `realActivation`
side effect (client registry construction, listener subscription,
heartbeat timer start) has executed in this process. -/
structure ExtState where
  activatedPreviously : Bool
  realActivationOccurred : Bool
  tempCommands : List Unit
  realActivationCount : Nat
deriving DecidableEq, Repr

/-- The state at process start: `realActivationOccurred = false`,
`tempCommands = []`, and the persisted flag at whatever value the
previous session left (`flag`). -/
def initState (flag : Bool) : ExtState :=
  { activatedPreviously := flag
    realActivationOccurred := false
    tempCommands := []
    realActivationCount := 0 }

/-- `realActivation` (extension.ts lines 108-138): sets the guard
boolean and performs the full-activation side effects (constructs the
`ClientCollection`, subscribes the five event listeners, starts the
heartbeat timer), recorded here as one increment of
`realActivationCount`.  It does not touch `tempCommands` or the
persisted `activatedPreviously` flag. -/
def realActivation (s : ExtState) : ExtState :=
  { s with
    realActivationOccurred := true
    realActivationCount := s.realActivationCount + 1 }

/-- `onActivationEvent` (extension.ts lines 92-106): returns
immediately when no temporary commands are registered; otherwise
disposes all of them, runs `realActivation` unless it already
occurred, and finally persists `activatedPreviously = true`. -/
def onActivationEvent (s : ExtState) : ExtState :=
  if s.tempCommands.length = 0 then s
  else
    let s := { s with tempCommands := [] }
    let s := if !s.realActivationOccurred then realActivation s else s
    { s with activatedPreviously := true }

/-- `onDidOpenTextDocument` (extension.ts lines 86-90): triggers an
activation event when the opened document's language is c or cpp. -/
def onDidOpenTextDocument (languageId : String) (s : ExtState) : ExtState :=
  if languageId = "c" ∨ languageId = "cpp" then onActivationEvent s else s

/-- `activate` (extension.ts lines 43-84), the extension entry point.
Environment inputs: `activationEventOccurred` is the argument,
`configExists` abstracts the `fs.existsSync` scan of workspace folders
for `.vscode/c_cpp_properties.json`, and `cppDocOpen` abstracts the
scan of `vscode.workspace.textDocuments` for a c/cpp language id.
Step order follows the source: persisted fast path (clear the flag and
run `realActivation` directly), then `registerCommands` and the push
of the temporary `onDidOpenTextDocument` watcher onto `tempCommands`,
then the three early-return activation-event checks. -/
def activate (activationEventOccurred configExists cppDocOpen : Bool)
    (s : ExtState) : ExtState :=
  let s :=
    if s.activatedPreviously then
      realActivation { s with activatedPreviously := false }
    else s
  let s := { s with tempCommands := s.tempCommands ++ [()] }
  if activationEventOccurred then onActivationEvent s
  else if configExists then onActivationEvent s
  else if cppDocOpen then onActivationEvent s
  else s

/-- `getClients` (extension.ts lines 689-694): runs `realActivation`
when it has not occurred, then returns the collection.  Only the state
effect is modelled. -/
def getClients (s : ExtState) : ExtState :=
  if !s.realActivationOccurred then realActivation s else s

/-- `getActiveClient` (extension.ts lines 696-701): same activation
side effect as `getClients`. -/
def getActiveClient (s : ExtState) : ExtState :=
  if !s.realActivationOccurred then realActivation s else s

/-- The events claims C1, C3 and C4 quantify over: calls to the
`activate` entry point (with its environment), document-open events
(reaching `onDidOpenTextDocument` through the temporary watcher), and
command invocations.  A `command` is any registered handler that calls
`onActivationEvent` first; `addToIncludePath` is the one registered
handler whose body never touches the activation state. -/
inductive Ev where
  | activate (activationEventOccurred configExists cppDocOpen : Bool)
  | docOpen (languageId : String)
  | command
  | addToIncludePath
deriving DecidableEq, Repr

/-- One step of the activation state machine. -/
def step (s : ExtState) : Ev → ExtState
  | .activate e c d => activate e c d s
  | .docOpen lang => onDidOpenTextDocument lang s
  | .command => onActivationEvent s
  | .addToIncludePath => s

/-- Run a sequence of events from a state. -/
def run (s : ExtState) (evs : List Ev) : ExtState :=
  evs.foldl step s

/-- Whether an event is a call to the `activate` entry point. -/
def Ev.isActivate : Ev → Bool
  | .activate _ _ _ => true
  | _ => false

/-- Number of `activate` calls in an event sequence. -/
def countActivate (evs : List Ev) : Nat :=
  (evs.filter Ev.isActivate).length

/-- Guard invariant: at most one full activation so far, and none at
all while the guard boolean is still false. -/
def GuardInv (s : ExtState) : Prop :=
  s.realActivationCount ≤ 1 ∧
    (s.realActivationOccurred = false → s.realActivationCount = 0)

lemma guardInv_onActivationEvent {s : ExtState} (h : GuardInv s) :
    GuardInv (onActivationEvent s) := by
  unfold GuardInv onActivationEvent realActivation at *
  by_cases ht : s.tempCommands.length = 0
  · simpa [ht] using h
  · by_cases ho : s.realActivationOccurred <;> simp [ht, ho] at h ⊢ <;> omega

lemma guardInv_step_nonActivate {s : ExtState} {e : Ev}
    (he : e.isActivate = false) (h : GuardInv s) : GuardInv (step s e) := by
  cases e with
  | activate a b c => simp [Ev.isActivate] at he
  | docOpen lang =>
      show GuardInv (onDidOpenTextDocument lang s)
      unfold onDidOpenTextDocument
      split
      · exact guardInv_onActivationEvent h
      · exact h
  | command => exact guardInv_onActivationEvent h
  | addToIncludePath => exact h

lemma guardInv_run_nonActivate {evs : List Ev} {s : ExtState}
    (he : ∀ e ∈ evs, e.isActivate = false) (h : GuardInv s) :
    GuardInv (run s evs) := by
  induction evs generalizing s with
  | nil => exact h
  | cons e evs ih =>
      exact ih (fun x hx => he x (List.mem_cons_of_mem e hx))
        (guardInv_step_nonActivate (he e (List.mem_cons_self e evs)) h)

lemma guardInv_activate_init (e c d f : Bool) :
    GuardInv (activate e c d (initState f)) := by
  unfold GuardInv
  cases f <;> cases e <;> cases c <;> cases d <;> exact ⟨by decide, by decide⟩

lemma step_nonActivate_init {e : Ev} (he : e.isActivate = false) (f : Bool) :
    step (initState f) e = initState f := by
  cases e with
  | activate a b c => simp [Ev.isActivate] at he
  | docOpen lang =>
      show onDidOpenTextDocument lang (initState f) = initState f
      unfold onDidOpenTextDocument
      split <;> rfl
  | command => rfl
  | addToIncludePath => rfl

lemma countActivate_cons (e : Ev) (evs : List Ev) :
    countActivate (e :: evs) =
      (if e.isActivate then 1 else 0) + countActivate evs := by
  unfold countActivate
  rw [List.filter_cons]
  split <;> simp [Nat.add_comm]

lemma countActivate_zero {evs : List Ev} (h : countActivate evs = 0) :
    ∀ e ∈ evs, e.isActivate = false := by
  intro e he
  have : evs.filter Ev.isActivate = [] := List.length_eq_zero.mp h
  by_cases hb : e.isActivate = true
  · exact absurd (this ▸ List.mem_filter_of_mem he hb) (List.not_mem_nil e)
  · simpa using hb

end Cpptools

namespace Cpptools

/-- C1.  The claim quantifies over arbitrary sequences of calls to the
activation entry point and of qualifying events; the persisted
fast path in `activate` calls `realActivation` guarded only by the
persisted flag, not by `realActivationOccurred`, so a second call to
`activate` after an activation event has persisted the flag runs the
full-activation side effect a second time.  Concretely: starting with
the persisted flag clear, calling `activate(true)` twice executes
`realActivation` twice. -/
theorem C1_counterexample :
    ¬ (run (initState false)
        [.activate true false false, .activate true false false]).realActivationCount ≤ 1 := by
  decide

/-- C1 (amended): in every event sequence containing at most one call
to the `activate` entry point — the host invokes the entry point once
per process — the full-activation side effect (`realActivation`: client
registry constructed, event listeners subscribed, heartbeat timer
started) runs at most once, whatever qualifying activation events
(persisted flag set, config-file marker, c/cpp document open or opened
later, command invocations) occur. -/
theorem C1_full_activation_at_most_once (f : Bool) (evs : List Ev)
    (h : countActivate evs ≤ 1) :
    (run (initState f) evs).realActivationCount ≤ 1 := by
  induction evs with
  | nil => cases f <;> decide
  | cons e evs ih =>
      rw [countActivate_cons] at h
      cases hb : e.isActivate with
      | true =>
          cases e with
          | activate a b c =>
              have hz : countActivate evs = 0 := by
                rw [hb] at h; simp at h; omega
              have h1 : GuardInv (run (activate a b c (initState f)) evs) :=
                guardInv_run_nonActivate (countActivate_zero hz)
                  (guardInv_activate_init a b c f)
              exact h1.1
          | docOpen lang => simp [Ev.isActivate] at hb
          | command => simp [Ev.isActivate] at hb
          | addToIncludePath => simp [Ev.isActivate] at hb
      | false =>
          have hstep : step (initState f) e = initState f :=
            step_nonActivate_init hb f
          have hc : countActivate evs ≤ 1 := by
            rw [hb] at h; simpa using h
          calc (run (initState f) (e :: evs)).realActivationCount
              = (run (initState f) evs).realActivationCount := by
                unfold run
                rw [List.foldl_cons, hstep]
            _ ≤ 1 := ih hc

/-- Witness for C1_full_activation_at_most_once at a concrete
sequence: persisted fast path plus a document-open event and a
command. -/
theorem C1_witness :
    countActivate [Ev.docOpen "cpp", Ev.command, Ev.activate false true false] ≤ 1 ∧
    (run (initState true)
      [Ev.docOpen "cpp", Ev.command, Ev.activate false true false]).realActivationCount ≤ 1 :=
  ⟨by decide,
   C1_full_activation_at_most_once true
     [Ev.docOpen "cpp", Ev.command, Ev.activate false true false] (by decide)⟩

/-- C3.  The persisted fast path of `activate` (lines 49-52) clears
the `activatedPreviously` flag and calls `realActivation` directly
without going through `onActivationEvent`, so when no qualifying event
follows, the process has fully activated and yet the persisted flag is
left false (the source comment documents this: if `onActivationEvent`
does not occur, the extension will not auto-activate next time).
Concretely: with the persisted flag set and `activate(false)` in a
workspace with no config marker and no open c/cpp document,
`realActivation` ran once but the flag ends false. -/
theorem C3_counterexample :
    (run (initState true) [.activate false false false]).realActivationCount = 1 ∧
    (run (initState true) [.activate false false false]).activatedPreviously = false := by
  decide

/-- C3 (amended): whenever full activation is reached through the
activation-event path — `onActivationEvent` with temporary watchers
still registered, which covers the event-already-occurred argument,
the workspace/document scans, the temporary document-open watcher and
command invocations — the persisted `activatedPreviously` flag is set
to true at the end.  The persisted fast path is the exception: it runs
`realActivation` directly, clears the flag, and the flag is re-set
only if a qualifying event fires later in the session. -/
theorem C3_flag_persisted_on_activation_event :
    (∀ s : ExtState, s.tempCommands ≠ [] →
      (onActivationEvent s).activatedPreviously = true ∧
      (onActivationEvent s).realActivationOccurred = true) ∧
    (∀ f e c d : Bool, e = true ∨ c = true ∨ d = true →
      (activate e c d (initState f)).activatedPreviously = true ∧
      (activate e c d (initState f)).realActivationOccurred = true) := by
  constructor
  · intro s hs
    unfold onActivationEvent realActivation
    have hl : ¬ s.tempCommands.length = 0 := by
      simpa [List.length_eq_zero] using hs
    by_cases ho : s.realActivationOccurred <;> simp [hl, ho]
  · intro f e c d h
    cases f <;> cases e <;> cases c <;> cases d <;> simp_all <;> decide

/-- Witness for C3_flag_persisted_on_activation_event at concrete
inputs. -/
theorem C3_witness :
    (onActivationEvent ⟨false, false, [()], 0⟩).activatedPreviously = true ∧
    (activate true false false (initState false)).activatedPreviously = true :=
  ⟨(C3_flag_persisted_on_activation_event.1 ⟨false, false, [()], 0⟩ (by decide)).1,
   (C3_flag_persisted_on_activation_event.2 false true false false (Or.inl rfl)).1⟩

/-- The invariant claimed by C4: the temporary-watcher list is empty
exactly when full activation has occurred. -/
def TempInv (s : ExtState) : Prop :=
  s.tempCommands = [] ↔ s.realActivationOccurred = true

lemma tempInv_onActivationEvent {s : ExtState} (h : TempInv s) :
    TempInv (onActivationEvent s) := by
  unfold TempInv onActivationEvent realActivation at *
  by_cases ht : s.tempCommands.length = 0
  · simpa [ht] using h
  · by_cases ho : s.realActivationOccurred <;> simp [ht, ho]

lemma tempInv_step_nonActivate {s : ExtState} {e : Ev}
    (he : e.isActivate = false) (h : TempInv s) : TempInv (step s e) := by
  cases e with
  | activate a b c => simp [Ev.isActivate] at he
  | docOpen lang =>
      show TempInv (onDidOpenTextDocument lang s)
      unfold onDidOpenTextDocument
      split
      · exact tempInv_onActivationEvent h
      · exact h
  | command => exact tempInv_onActivationEvent h
  | addToIncludePath => exact h

lemma tempInv_run_nonActivate {evs : List Ev} {s : ExtState}
    (he : ∀ e ∈ evs, e.isActivate = false) (h : TempInv s) :
    TempInv (run s evs) := by
  induction evs generalizing s with
  | nil => exact h
  | cons e evs ih =>
      exact ih (fun x hx => he x (List.mem_cons_of_mem e hx))
        (tempInv_step_nonActivate (he e (List.mem_cons_self e evs)) h)

/-- C4.  The invariant fails on the code: when the persisted flag was
set, the fast path of `activate` fully activates and then still pushes
the temporary document-open watcher, which stays registered until an
activation event fires.  Concretely: persisted flag true,
`activate(false)` with no config marker and no open c/cpp document
reaches a state with `realActivationOccurred = true` and a non-empty
`tempCommands`. -/
theorem C4_counterexample :
    (run (initState true) [.activate false false false]).realActivationOccurred = true ∧
    (run (initState true) [.activate false false false]).tempCommands ≠ [] := by
  decide

/-- C4 (amended): when the session starts with the persisted
previously-activated flag false, then from the moment the `activate`
entry point has run (once, as the host calls it), every further
sequence of activation events and command invocations maintains the
invariant: `tempCommands` is empty iff `realActivationOccurred` is
true.  (Before `activate` runs, both are trivially empty/false, and
when the persisted flag was true the fast path breaks the invariant,
as the counterexample shows.) -/
theorem C4_tempCommands_empty_iff_activated (e c d : Bool) (evs : List Ev)
    (he : ∀ ev ∈ evs, ev.isActivate = false) :
    ((run (activate e c d (initState false)) evs).tempCommands = [] ↔
     (run (activate e c d (initState false)) evs).realActivationOccurred = true) := by
  refine tempInv_run_nonActivate he ?_
  unfold TempInv
  cases e <;> cases c <;> cases d <;> decide

/-- Witness for C4_tempCommands_empty_iff_activated: dormant start,
then a command invocation activates and the invariant holds. -/
theorem C4_witness :
    ((run (activate false false false (initState false)) [Ev.command]).tempCommands = [] ↔
     (run (activate false false false (initState false)) [Ev.command]).realActivationOccurred = true) :=
  C4_tempCommands_empty_iff_activated false false false [Ev.command] (by decide)

/-- C9: calling the exported `getClients` (or `getActiveClient`)
before full activation runs `realActivation` as a side effect, but —
unlike `onActivationEvent` — leaves the temporary document-open
watcher list untouched and does not set the persisted
`activatedPreviously` flag. -/
theorem C9_getClients_activates_without_flag_or_dispose (s : ExtState)
    (h : s.realActivationOccurred = false) :
    (getClients s).realActivationCount = s.realActivationCount + 1 ∧
    (getClients s).realActivationOccurred = true ∧
    (getClients s).tempCommands = s.tempCommands ∧
    (getClients s).activatedPreviously = s.activatedPreviously ∧
    getActiveClient s = getClients s := by
  unfold getClients getActiveClient realActivation
  simp [h]

/-- Witness for C9 at the dormant post-activate state. -/
theorem C9_witness :
    (getClients ⟨false, false, [()], 0⟩).realActivationCount = 0 + 1 ∧
    (getClients ⟨false, false, [()], 0⟩).realActivationOccurred = true ∧
    (getClients ⟨false, false, [()], 0⟩).tempCommands = [()] ∧
    (getClients ⟨false, false, [()], 0⟩).activatedPreviously = false ∧
    getActiveClient ⟨false, false, [()], 0⟩ = getClients ⟨false, false, [()], 0⟩ :=
  C9_getClients_activates_without_flag_or_dispose ⟨false, false, [()], 0⟩ rfl

/-! ## Command dispatch (registerCommands, lines 366-385, and the
handlers, lines 387-604)

Each registered command handler is embedded as the sequence of
observable actions its body performs, as a function of the parts of
the editor environment the handler reads. -/

/-- Observable actions a command handler performs. -/
inductive Action where
  | activationGuard
  | infoMessage (msg : String)
  | clientCall (method : String)
  | selectClientThen (method : String)
  | toggleSetting (key : String)
  | updateSetting (key : String)
  | showReleaseNotes
  | telemetryEvent (evName : String)
  | openExternalUri
  | writePackageJson
  | showNavigationOptions
deriving DecidableEq, Repr

/-- Editor environment read by the command handlers. -/
structure CmdEnv where
  folderOpen : Bool
  hasActiveEditor : Bool
  activeEditorLang : String
deriving DecidableEq, Repr

/-- `onNavigate` (lines 387-397). -/
def onNavigateCmd (env : CmdEnv) : List Action :=
  Action.activationGuard ::
    (if env.hasActiveEditor then
      [.clientCall "requestNavigationList", .showNavigationOptions]
    else [])

/-- `onGoToDeclaration` (lines 399-402). -/
def onGoToDeclarationCmd (_ : CmdEnv) : List Action :=
  [.activationGuard, .clientCall "requestGoToDeclaration"]

/-- `onPeekDeclaration` (lines 404-407). -/
def onPeekDeclarationCmd (_ : CmdEnv) : List Action :=
  [.activationGuard, .clientCall "requestGoToDeclaration"]

/-- `onSwitchHeaderSource` (lines 409-448); the editor-column logic in
the continuation is not observed here. -/
def onSwitchHeaderSourceCmd (env : CmdEnv) : List Action :=
  Action.activationGuard ::
    (if !env.hasActiveEditor then []
    else if env.activeEditorLang ≠ "cpp" ∧ env.activeEditorLang ≠ "c" then []
    else [.clientCall "requestSwitchHeaderSource"])

/-- `onResetDatabase` (lines 472-476). -/
def onResetDatabaseCmd (_ : CmdEnv) : List Action :=
  [.activationGuard, .selectClientThen "resetDatabase"]

/-- `onSelectConfiguration` (lines 478-487). -/
def onSelectConfigurationCmd (env : CmdEnv) : List Action :=
  Action.activationGuard ::
    (if !env.folderOpen then
      [.infoMessage "Open a folder first to select a configuration"]
    else [.clientCall "handleConfigurationSelectCommand"])

/-- `onSelectConfigurationProvider` (lines 489-496). -/
def onSelectConfigurationProviderCmd (env : CmdEnv) : List Action :=
  Action.activationGuard ::
    (if !env.folderOpen then
      [.infoMessage "Open a folder first to select a configuration provider"]
    else [.selectClientThen "handleConfigurationProviderSelectCommand"])

/-- `onEditConfiguration` (lines 498-505). -/
def onEditConfigurationCmd (env : CmdEnv) : List Action :=
  Action.activationGuard ::
    (if !env.folderOpen then
      [.infoMessage "Open a folder first to edit configurations"]
    else [.selectClientThen "handleConfigurationEditCommand"])

/-- `onAddToIncludePath` (lines 507-515).  Note: its body starts with
the `isFolderOpen()` check; it does not call `onActivationEvent`. -/
def onAddToIncludePathCmd (env : CmdEnv) : List Action :=
  if !env.folderOpen then
    [.infoMessage "Open a folder first to add to includePath"]
  else [.clientCall "handleAddToIncludePathCommand"]

/-- `onToggleSquiggles` (lines 517-522). -/
def onToggleSquigglesCmd (_ : CmdEnv) : List Action :=
  [.activationGuard, .toggleSetting "errorSquiggles"]

/-- `onToggleSnippets` (lines 524-554), as an action trace; the
manifest transformation itself is embedded separately below. -/
def onToggleSnippetsCmd (_ : CmdEnv) : List Action :=
  [.activationGuard, .writePackageJson]

/-- `onToggleIncludeFallback` (lines 565-570). -/
def onToggleIncludeFallbackCmd (_ : CmdEnv) : List Action :=
  [.activationGuard, .toggleSetting "intelliSenseEngineFallback"]

/-- `onToggleDimInactiveRegions` (lines 572-577). -/
def onToggleDimInactiveRegionsCmd (_ : CmdEnv) : List Action :=
  [.activationGuard, .updateSetting "dimInactiveRegions"]

/-- `onShowReleaseNotes` (lines 579-582). -/
def onShowReleaseNotesCmd (_ : CmdEnv) : List Action :=
  [.activationGuard, .showReleaseNotes]

/-- `onPauseParsing` (lines 584-587). -/
def onPauseParsingCmd (_ : CmdEnv) : List Action :=
  [.activationGuard, .selectClientThen "pauseParsing"]

/-- `onResumeParsing` (lines 589-592). -/
def onResumeParsingCmd (_ : CmdEnv) : List Action :=
  [.activationGuard, .selectClientThen "resumeParsing"]

/-- `onShowParsingCommands` (lines 594-597). -/
def onShowParsingCommandsCmd (_ : CmdEnv) : List Action :=
  [.activationGuard, .selectClientThen "handleShowParsingCommands"]

/-- `onTakeSurvey` (lines 599-604). -/
def onTakeSurveyCmd (_ : CmdEnv) : List Action :=
  [.activationGuard, .telemetryEvent "onTakeSurvey", .openExternalUri]

/-- The command dispatch table registered by `registerCommands`
(lines 366-385), in source order. -/
def registeredCommands : List (String × (CmdEnv → List Action)) :=
  [("C_Cpp.Navigate", onNavigateCmd),
   ("C_Cpp.GoToDeclaration", onGoToDeclarationCmd),
   ("C_Cpp.PeekDeclaration", onPeekDeclarationCmd),
   ("C_Cpp.SwitchHeaderSource", onSwitchHeaderSourceCmd),
   ("C_Cpp.ResetDatabase", onResetDatabaseCmd),
   ("C_Cpp.ConfigurationSelect", onSelectConfigurationCmd),
   ("C_Cpp.ConfigurationProviderSelect", onSelectConfigurationProviderCmd),
   ("C_Cpp.ConfigurationEdit", onEditConfigurationCmd),
   ("C_Cpp.AddToIncludePath", onAddToIncludePathCmd),
   ("C_Cpp.ToggleErrorSquiggles", onToggleSquigglesCmd),
   ("C_Cpp.ToggleSnippets", onToggleSnippetsCmd),
   ("C_Cpp.ToggleIncludeFallback", onToggleIncludeFallbackCmd),
   ("C_Cpp.ToggleDimInactiveRegions", onToggleDimInactiveRegionsCmd),
   ("C_Cpp.ShowReleaseNotes", onShowReleaseNotesCmd),
   ("C_Cpp.PauseParsing", onPauseParsingCmd),
   ("C_Cpp.ResumeParsing", onResumeParsingCmd),
   ("C_Cpp.ShowParsingCommands", onShowParsingCommandsCmd),
   ("C_Cpp.TakeSurvey", onTakeSurveyCmd)]

/-- C2.  The claim fails on the code: the handler registered for
`C_Cpp.AddToIncludePath` (table entry 8) never calls the activation
guard; with a folder open its first (and only client-facing) action is
the delegation itself. -/
theorem C2_counterexample :
    (registeredCommands.get? 8).map Prod.fst = some "C_Cpp.AddToIncludePath" ∧
    (registeredCommands.get? 8).map
        (fun p => (p.2 ⟨true, true, "cpp"⟩).head?) =
      some (some (Action.clientCall "handleAddToIncludePathCommand")) ∧
    ∀ env : CmdEnv, Action.activationGuard ∉ onAddToIncludePathCmd env := by
  refine ⟨rfl, rfl, ?_⟩
  intro env
  unfold onAddToIncludePathCmd
  split <;> decide

/-- C2 (amended): every command handler in the dispatch table except
the one registered for `C_Cpp.AddToIncludePath` calls the activation
guard (`onActivationEvent`) unconditionally as its first action,
before resolving a client or delegating; `onAddToIncludePath` never
calls the guard at all. -/
theorem C2_handlers_call_guard_first :
    ∀ p ∈ registeredCommands, p.1 ≠ "C_Cpp.AddToIncludePath" →
      ∀ env : CmdEnv, (p.2 env).head? = some Action.activationGuard := by
  intro p hp hne env
  fin_cases hp <;>
    first
      | rfl
      | exact absurd rfl hne

/-- Witness for C2_handlers_call_guard_first at the first table
entry. -/
theorem C2_witness :
    (onNavigateCmd ⟨true, true, "cpp"⟩).head? = some Action.activationGuard :=
  C2_handlers_call_guard_first ("C_Cpp.Navigate", onNavigateCmd)
    (List.Mem.head _) (by decide) ⟨true, true, "cpp"⟩

/-! ## Client selection (selectClient, lines 454-470) -/

/-- An opaque per-workspace client handle. -/
structure Client where
  id : Nat
deriving DecidableEq, Repr

/-- Modelled from the spec: the `ClientCollection` type lives in
`./clientCollection`, which is not among the provided sources.  Per
the spec it is an "iterable collection of Client keyed by workspace
name, with an ActiveClient accessor", a "mapping from key to
ClientHandle" in folder-open order, with accessors
`add/get/forEach/Count/Names/ActiveClient`, and "exactly one handle is
marked active at a time". -/
structure ClientCollection where
  clientList : List (String × Client)
  activeKey : String
deriving DecidableEq, Repr

/-- Modelled from the spec: the number of registered clients. -/
def ClientCollection.Count (cc : ClientCollection) : Nat :=
  cc.clientList.length

/-- Modelled from the spec: the workspace names, in order. -/
def ClientCollection.Names (cc : ClientCollection) : List String :=
  cc.clientList.map Prod.fst

/-- Modelled from the spec: lookup of a client by workspace key. -/
def ClientCollection.get (cc : ClientCollection) (key : String) : Option Client :=
  (cc.clientList.find? (fun p => p.1 == key)).map Prod.snd

/-- Modelled from the spec: the active client; "must always resolve to
a valid handle once at least one folder exists". -/
def ClientCollection.ActiveClient (cc : ClientCollection) : Client :=
  (cc.get cc.activeKey).getD ⟨0⟩

/-- `selectClient` (lines 454-470): with exactly one registered client
resolve immediately to the active client; otherwise ask the UI picker
(`ui.showWorkspaces`) for a workspace name, resolve a non-empty known
name through `clients.get`, and reject an empty (cancelled) selection
or an unknown name.  `pick` is the UI collaborator; the Bool records
whether the picker was invoked. -/
def selectClient (cc : ClientCollection) (pick : List String → String) :
    Bool × Except String Client :=
  if cc.Count = 1 then (false, .ok cc.ActiveClient)
  else
    (true,
      let key := pick cc.Names
      if key ≠ "" then
        match cc.get key with
        | some client => .ok client
        | none => .error "client not found"
      else .error "client not found")

/-- `onResetDatabase` (lines 472-476), delegation step: the resolved
client receives `resetDatabase`; a rejected selection is consumed by
the no-op rejection handler, so no client action is taken. -/
def onResetDatabaseClientActions (cc : ClientCollection)
    (pick : List String → String) : List (Client × String) :=
  match (selectClient cc pick).2 with
  | .ok c => [(c, "resetDatabase")]
  | .error _ => []

/-- C5: with exactly one registered client `selectClient` resolves to
the active client without invoking the picker; with two or more it
invokes the picker, resolves a valid selected name to the matching
handle, and rejects an empty/cancelled selection or an unknown name,
in which case the consuming command (reset database) performs no
client action. -/
theorem C5_selectClient_resolution (cc : ClientCollection)
    (pick : List String → String) :
    (cc.Count = 1 → selectClient cc pick = (false, .ok cc.ActiveClient)) ∧
    (2 ≤ cc.Count →
      (selectClient cc pick).1 = true ∧
      (∀ c : Client, pick cc.Names ≠ "" → cc.get (pick cc.Names) = some c →
        (selectClient cc pick).2 = .ok c) ∧
      (pick cc.Names = "" ∨ cc.get (pick cc.Names) = none →
        (selectClient cc pick).2 = .error "client not found" ∧
        onResetDatabaseClientActions cc pick = [])) := by
  constructor
  · intro h1
    simp [selectClient, h1]
  · intro h2
    have hne : ¬ cc.Count = 1 := by omega
    refine ⟨by simp [selectClient, hne], ?_, ?_⟩
    · intro c hk hget
      simp [selectClient, hne, hk, hget]
    · intro hor
      have herr : (selectClient cc pick).2 = .error "client not found" := by
        rcases hor with h | h
        · simp [selectClient, hne, h]
        · by_cases hk : pick cc.Names = ""
          · simp [selectClient, hne, hk]
          · simp [selectClient, hne, hk, h]
      refine ⟨herr, ?_⟩
      unfold onResetDatabaseClientActions
      rw [herr]

/-- Witness for C5_selectClient_resolution: a single-client collection
resolves without the picker; a two-client collection resolves a valid
name and no-ops on a cancelled pick. -/
theorem C5_witness :
    selectClient ⟨[("a", ⟨1⟩)], "a"⟩ (fun _ => "") = (false, .ok ⟨1⟩) ∧
    (selectClient ⟨[("a", ⟨1⟩), ("b", ⟨2⟩)], "a"⟩ (fun _ => "b")).2 = .ok ⟨2⟩ ∧
    onResetDatabaseClientActions ⟨[("a", ⟨1⟩), ("b", ⟨2⟩)], "a"⟩ (fun _ => "") = [] :=
  ⟨(C5_selectClient_resolution ⟨[("a", ⟨1⟩)], "a"⟩ (fun _ => "")).1 rfl,
   (((C5_selectClient_resolution ⟨[("a", ⟨1⟩), ("b", ⟨2⟩)], "a"⟩ (fun _ => "b")).2
      (by decide)).2.1) ⟨2⟩ (by decide) (by decide),
   (((C5_selectClient_resolution ⟨[("a", ⟨1⟩), ("b", ⟨2⟩)], "a"⟩ (fun _ => "")).2
      (by decide)).2.2 (Or.inl rfl)).2⟩

/-! ## Selection-changed routing (onDidChangeTextEditorSelection,
lines 201-215) -/

/-- The parts of a `TextEditorSelectionChangeEvent` the handler reads:
whether `event.textEditor` is present, its document's URI and language
id, and the start position of the first selection (line, character).
Document URIs are embedded as strings; the source compares `Uri`
objects of the same document with `!==`, modelled as string
inequality. -/
structure SelEvent where
  hasTextEditor : Bool
  uri : String
  languageId : String
  selectionStart : Nat × Nat
deriving DecidableEq, Repr

/-- The window state the handler reads: whether
`vscode.window.activeTextEditor` exists and its document's URI. -/
structure WindowState where
  hasActiveEditor : Bool
  activeEditorUri : String
deriving DecidableEq, Repr

/-- Actions the selection-changed router performs, in order. -/
inductive RouteAction where
  | activeDocumentChangedNotify (uri : String)
  | uiActiveDocumentChanged
  | selectionForward (pos : Nat × Nat)
deriving DecidableEq, Repr

/-- `onDidChangeTextEditorSelection` (lines 201-215): no-op unless the
event has an editor, the window has an active editor, the event's
document is the active editor's document, and its language is c/cpp;
then, if the `activeDocument` tracker disagrees with the event's URI,
first update the tracker, notify clients of the document change and
notify the UI; finally forward the selection start to the active
client in every non-filtered case.  Returns the new tracker value and
the ordered action trace. -/
def onDidChangeTextEditorSelection (win : WindowState) (ev : SelEvent)
    (activeDocument : String) : String × List RouteAction :=
  if ev.hasTextEditor = false ∨ win.hasActiveEditor = false ∨
      ev.uri ≠ win.activeEditorUri ∨
      (ev.languageId ≠ "cpp" ∧ ev.languageId ≠ "c") then
    (activeDocument, [])
  else
    let implicitChange :=
      if activeDocument ≠ ev.uri then
        (ev.uri, [RouteAction.activeDocumentChangedNotify ev.uri,
                  RouteAction.uiActiveDocumentChanged])
      else (activeDocument, [])
    (implicitChange.1,
     implicitChange.2 ++ [RouteAction.selectionForward ev.selectionStart])

/-- C6.  The claim fails on the code: the handler also requires the
event's editor to be the window's active editor.  A selection-changed
event for c/cpp document B while the tracker holds A is dropped
entirely — no implicit active-document change and no forwarded
position — when the window's active editor shows yet another document
C. -/
theorem C6_counterexample :
    onDidChangeTextEditorSelection ⟨true, "file:C"⟩
      ⟨true, "file:B", "cpp", (0, 0)⟩ "file:A" = ("file:A", []) := by
  decide

/-- C6 (amended): for every selection-changed event on a c/cpp
document that is the window's active editor's document, if the event's
URI differs from the `activeDocument` tracker the handler first
performs the implicit active-document change (tracker set to the
event's URI, clients notified of the document change, UI notified) and
only then forwards the selection start; when the tracker agrees, the
selection start is forwarded directly — so the position is forwarded
in either case. -/
theorem C6_selection_tie_break (win : WindowState) (ev : SelEvent)
    (activeDocument : String)
    (hte : ev.hasTextEditor = true) (hae : win.hasActiveEditor = true)
    (huri : ev.uri = win.activeEditorUri)
    (hlang : ev.languageId = "cpp" ∨ ev.languageId = "c") :
    (activeDocument ≠ ev.uri →
      onDidChangeTextEditorSelection win ev activeDocument =
        (ev.uri, [RouteAction.activeDocumentChangedNotify ev.uri,
                  RouteAction.uiActiveDocumentChanged,
                  RouteAction.selectionForward ev.selectionStart])) ∧
    (activeDocument = ev.uri →
      onDidChangeTextEditorSelection win ev activeDocument =
        (activeDocument, [RouteAction.selectionForward ev.selectionStart])) := by
  have hguard : ¬ (ev.hasTextEditor = false ∨ win.hasActiveEditor = false ∨
      ev.uri ≠ win.activeEditorUri ∨
      (ev.languageId ≠ "cpp" ∧ ev.languageId ≠ "c")) := by
    push_neg
    rcases hlang with h | h <;> simp [hte, hae, huri, h]
  constructor
  · intro hdiff
    simp [onDidChangeTextEditorSelection, hguard, hdiff]
  · intro heq
    simp [onDidChangeTextEditorSelection, hguard, heq]

/-- Witness for C6_selection_tie_break: tracker at A, selection event
for B in the window's active editor. -/
theorem C6_witness :
    onDidChangeTextEditorSelection ⟨true, "file:B"⟩
      ⟨true, "file:B", "cpp", (3, 7)⟩ "file:A" =
      ("file:B", [RouteAction.activeDocumentChangedNotify "file:B",
                  RouteAction.uiActiveDocumentChanged,
                  RouteAction.selectionForward (3, 7)]) :=
  (C6_selection_tie_break ⟨true, "file:B"⟩ ⟨true, "file:B", "cpp", (3, 7)⟩
    "file:A" rfl rfl rfl (Or.inl rfl)).1 (by decide)

/-! ## Self-update check (checkAndApplyUpdate, lines 272-355) -/

/-- JavaScript string comparison `a < b`: lexicographic over UTF-16
code units (for the version strings involved, code units and code
points coincide). -/
def jsStringLtChars : List Char → List Char → Bool
  | [], [] => false
  | [], _ :: _ => true
  | _ :: _, [] => false
  | a :: as, b :: bs =>
      if a.val < b.val then true
      else if b.val < a.val then false
      else jsStringLtChars as bs

/-- JavaScript `a >= b` on strings, as used by the gate at line 301. -/
def jsStringGe (a b : String) : Bool :=
  !jsStringLtChars a.data b.data

/-- The version-deriving function expression at the top of
`checkAndApplyUpdate` (lines 275-288): if the package version has a
dash, accept only the "insiders" suffix (else abort with null) and
strip the suffix; otherwise use the version as is. -/
def deriveVersion (packageVersion : String) : Option String :=
  match packageVersion.data.findIdx? (fun ch => ch == '-') with
  | none => some packageVersion
  | some dashOffset =>
      if String.mk (packageVersion.data.drop (dashOffset + 1)) = "insiders" then
        some (String.mk (packageVersion.data.take dashOffset))
      else none

/-- One entry of a release's `assets` array, as read by the code. -/
structure ReleaseAsset where
  name : String
  browserDownloadUrl : String
deriving DecidableEq, Repr

/-- One entry of the releases manifest (newest first). -/
structure ReleaseBuild where
  name : String
  assets : List ReleaseAsset
deriving DecidableEq, Repr

/-- The platform information the update check reads. -/
structure PlatformInfo where
  platform : String
  architecture : String
deriving DecidableEq, Repr

/-- The environment `checkAndApplyUpdate` reads: the running package's
version string, the parsed releases manifest (`none` models a failed
download or parse, which rejects the surrounding promise), and the
platform information. -/
structure UpdateEnv where
  packageVersion : String
  releases : Option (List ReleaseBuild)
  platformInfo : PlatformInfo
deriving DecidableEq, Repr

/-- How one run of `checkAndApplyUpdate` ends. -/
inductive UpdateOutcome where
  | abortedBadVersionSuffix
  | abortedNoLatestBuild
  | abortedVersionGate
  | abortedNoVsixName
  | abortedNoDownloadUrl
  | installed (vsixName : String)
deriving DecidableEq, Repr

/-- `checkAndApplyUpdate` (lines 272-355) as a decision pipeline over
its environment: derive the version (abort on a non-insiders suffix),
take the latest (first) manifest entry (abort when the manifest is
missing or empty), abort when `version >= latestBuild.name` as a plain
string comparison, resolve the platform VSIX name (Linux x86_64/x86
only), look up the matching asset's download URL, and otherwise
proceed to download and install. -/
def checkAndApplyUpdate (env : UpdateEnv) : UpdateOutcome :=
  match deriveVersion env.packageVersion with
  | none => .abortedBadVersionSuffix
  | some version =>
      match env.releases.bind List.head? with
      | none => .abortedNoLatestBuild
      | some latestBuild =>
          if jsStringGe version latestBuild.name then .abortedVersionGate
          else
            let vsixName : Option String :=
              if env.platformInfo.platform = "linux" then
                if env.platformInfo.architecture = "x86_64" then
                  some "cpptools-linux.vsix"
                else if env.platformInfo.architecture = "x86" then
                  some "cpptools-linux32.vsix"
                else none
              else none
            match vsixName with
            | none => .abortedNoVsixName
            | some vsix =>
                match latestBuild.assets.find? (fun a => a.name == vsix) with
                | none => .abortedNoDownloadUrl
                | some asset =>
                    if asset.browserDownloadUrl = "" then .abortedNoDownloadUrl
                    else .installed vsix

/-- Update environment with current version 1.2.0 and latest manifest
name 1.3.0. -/
def updateEnv120 : UpdateEnv :=
  { packageVersion := "1.2.0"
    releases := some [{ name := "1.3.0"
                        assets := [{ name := "cpptools-linux.vsix"
                                     browserDownloadUrl := "https://example.invalid/cpptools-linux.vsix" }] }]
    platformInfo := { platform := "linux", architecture := "x86_64" } }

/-- Update environment with current version 1.3.0 and latest manifest
name 1.3.0. -/
def updateEnv130 : UpdateEnv :=
  { updateEnv120 with packageVersion := "1.3.0" }

/-- C7: once the version is derived and the latest manifest entry is
available, the check aborts at the version gate exactly when the
current version string is lexicographically ≥ the latest entry's name
under plain string comparison; with current 1.2.0 and latest 1.3.0 the
run proceeds past the gate, and with current 1.3.0 and latest 1.3.0 it
aborts at the gate. -/
theorem C7_version_gate :
    (∀ (env : UpdateEnv) (version : String) (latestBuild : ReleaseBuild),
      deriveVersion env.packageVersion = some version →
      env.releases.bind List.head? = some latestBuild →
      (checkAndApplyUpdate env = .abortedVersionGate ↔
        jsStringGe version latestBuild.name = true)) ∧
    checkAndApplyUpdate updateEnv120 ≠ .abortedVersionGate ∧
    checkAndApplyUpdate updateEnv130 = .abortedVersionGate := by
  refine ⟨?_, by decide, by decide⟩
  intro env version latestBuild hv hb
  unfold checkAndApplyUpdate
  rw [hv, hb]
  dsimp only
  by_cases hg : jsStringGe version latestBuild.name = true
  · simp [hg]
  · simp only [Bool.not_eq_true] at hg
    have hg' : ¬ jsStringGe version latestBuild.name = true := by simp [hg]
    rw [if_neg hg']
    constructor
    · intro h
      exfalso
      revert h
      split
      · simp
      · split
        · simp
        · split <;> simp
    · intro h
      exact absurd h hg'

/-- Witness for the first conjunct of C7_version_gate at the concrete
1.2.0 / 1.3.0 environment. -/
theorem C7_witness :
    (checkAndApplyUpdate updateEnv120 = .abortedVersionGate ↔
      jsStringGe "1.2.0" "1.3.0" = true) :=
  C7_version_gate.1 updateEnv120 "1.2.0"
    { name := "1.3.0"
      assets := [{ name := "cpptools-linux.vsix"
                   browserDownloadUrl := "https://example.invalid/cpptools-linux.vsix" }] }
    rfl rfl

/-! ## Snippets toggle (onToggleSnippets, lines 524-554) -/

/-- The package-manifest fields `onToggleSnippets` reads and writes:
the `categories` array and the `contributes.snippets` node (absent, or
a list of language/path entries). -/
structure PackageManifest where
  categories : List String
  contributesSnippets : Option (List (String × String))
deriving DecidableEq, Repr

/-- The category name constant (line 528). -/
def snippetsCatName : String := "Snippets"

/-- The fixed snippets node written by the add branch (line 535). -/
def cppSnippetsNode : List (String × String) :=
  [("cpp", "./cpp_snippets.json"), ("c", "./cpp_snippets.json")]

/-- The manifest transformation of `onToggleSnippets` (lines 524-554):
when `categories` has no "Snippets" entry (`findIndex === -1`), append
the category and set `contributes.snippets` to the fixed node;
otherwise splice out the first occurrence (at `indexOf`) and delete
`contributes.snippets`. -/
def toggleSnippetsManifest (m : PackageManifest) : PackageManifest :=
  if m.categories.findIdx? (fun cat => cat == snippetsCatName) = none then
    { categories := m.categories ++ [snippetsCatName]
      contributesSnippets := some cppSnippetsNode }
  else
    { categories := m.categories.erase snippetsCatName
      contributesSnippets := none }

/-- C8.  The claim fails on the code for manifests whose `categories`
lacks "Snippets" but whose `contributes` still has a snippets node:
the first toggle overwrites that node with the fixed one and the
second deletes it, so the original contributes state is not restored.
-/
theorem C8_counterexample :
    snippetsCatName ∉
      (PackageManifest.mk [] (some [("c", "./my_snippets.json")])).categories ∧
    toggleSnippetsManifest
        (toggleSnippetsManifest
          (PackageManifest.mk [] (some [("c", "./my_snippets.json")]))) ≠
      PackageManifest.mk [] (some [("c", "./my_snippets.json")]) := by
  decide

/-- C8 (amended): applied twice to any manifest whose categories list
lacks the "Snippets" entry and whose contributes section has no
snippets node, the toggle returns both sections to their original
state; and the presence of the category name is the sole state bit
deciding between the add and remove branches (the branch test
`findIndex === -1` holds exactly when the category is absent). -/
theorem C8_toggleSnippets_round_trip :
    (∀ m : PackageManifest, snippetsCatName ∉ m.categories →
      m.contributesSnippets = none →
      toggleSnippetsManifest (toggleSnippetsManifest m) = m) ∧
    (∀ m : PackageManifest,
      (m.categories.findIdx? (fun cat => cat == snippetsCatName) = none ↔
        snippetsCatName ∉ m.categories)) := by
  have hmem : ∀ l : List String,
      (l.findIdx? (fun cat => cat == snippetsCatName) = none ↔
        snippetsCatName ∉ l) := by
    intro l
    rw [List.findIdx?_eq_none_iff]
    constructor
    · intro h hmem
      have := h snippetsCatName hmem
      simp at this
    · intro h x hx
      by_cases hxe : x = snippetsCatName
      · exact absurd (hxe ▸ hx) h
      · simp [hxe]
  refine ⟨?_, fun m => hmem m.categories⟩
  intro m hcat hnode
  have h1 : toggleSnippetsManifest m =
      { categories := m.categories ++ [snippetsCatName]
        contributesSnippets := some cppSnippetsNode } := by
    unfold toggleSnippetsManifest
    rw [if_pos ((hmem m.categories).mpr hcat)]
  have hcat2 : snippetsCatName ∈ m.categories ++ [snippetsCatName] := by
    simp
  have h2 : toggleSnippetsManifest
      { categories := m.categories ++ [snippetsCatName]
        contributesSnippets := some cppSnippetsNode } =
      { categories := (m.categories ++ [snippetsCatName]).erase snippetsCatName
        contributesSnippets := none } := by
    unfold toggleSnippetsManifest
    rw [if_neg]
    intro hnone
    exact (hmem _).mp hnone hcat2
  rw [h1, h2, List.erase_append_right _ hcat, List.erase_cons_head]
  cases m with
  | mk cats node =>
      simp at hnode
      simp [hnode]

/-- Witness for C8_toggleSnippets_round_trip on a concrete manifest
without the snippets category or node. -/
theorem C8_witness :
    toggleSnippetsManifest
        (toggleSnippetsManifest
          (PackageManifest.mk ["Programming Languages"] none)) =
      PackageManifest.mk ["Programming Languages"] none ∧
    ((PackageManifest.mk ["Programming Languages"] none).categories.findIdx?
        (fun cat => cat == snippetsCatName) = none ↔
      snippetsCatName ∉
        (PackageManifest.mk ["Programming Languages"] none).categories) :=
  ⟨C8_toggleSnippets_round_trip.1 (PackageManifest.mk ["Programming Languages"] none)
      (by decide) rfl,
   C8_toggleSnippets_round_trip.2 (PackageManifest.mk ["Programming Languages"] none)⟩

/-! ## Download with redirect (downloadFileToDestination,
lines 222-257) -/

/-- Outgoing HTTP headers as key/value pairs. -/
abbrev HttpHeadersModel := List (String × String)

/-- What the handler reads of an HTTPS response: the status code and
the Location header value. -/
structure HttpResponse where
  statusCode : Nat
  location : String
deriving DecidableEq, Repr

/-- A request as issued by `https.request`: the URL and the optional
caller-supplied headers. -/
structure HttpRequest where
  url : String
  headers : Option HttpHeadersModel
deriving DecidableEq, Repr

/-- `downloadFileToDestination` (lines 222-257): issue an HTTPS
request for the URL with the caller-supplied headers; on a 301/302
response recurse on the Location header — the recursive call at line
240 passes only the redirect URL and the destination path, not the
`headers` argument — on 200 write the file and resolve, otherwise
reject.  The network collaborator maps a request to its response;
`fuel` bounds the redirect chain, on which the source recurses
unboundedly.  Returns the ordered list of requests issued and the
promise outcome. -/
def downloadFileToDestination :
    Nat → String → Option HttpHeadersModel →
    (String → Option HttpHeadersModel → HttpResponse) →
    List HttpRequest × Except Unit Unit
  | 0, _, _, _ => ([], .error ())
  | fuel + 1, urlStr, headers, net =>
      let response := net urlStr headers
      if response.statusCode = 301 ∨ response.statusCode = 302 then
        let rest := downloadFileToDestination fuel response.location none net
        ({ url := urlStr, headers := headers } :: rest.1, rest.2)
      else if response.statusCode = 200 then
        ([{ url := urlStr, headers := headers }], .ok ())
      else
        ([{ url := urlStr, headers := headers }], .error ())

lemma downloadFileToDestination_first (g : Nat) (u : String)
    (h : Option HttpHeadersModel)
    (net : String → Option HttpHeadersModel → HttpResponse) :
    (downloadFileToDestination (g + 1) u h net).1.get? 0 =
      some { url := u, headers := h } := by
  unfold downloadFileToDestination
  dsimp only
  split
  · rfl
  · split <;> rfl

/-- C10: when the first response to a download request carrying
caller-supplied headers is a 301/302 redirect, the follow-up request
to the redirect location is issued without those headers (the
`headers` argument is not forwarded through the recursive call). -/
theorem C10_redirect_drops_headers (fuel : Nat) (urlStr : String)
    (headers : HttpHeadersModel)
    (net : String → Option HttpHeadersModel → HttpResponse)
    (hred : (net urlStr (some headers)).statusCode = 301 ∨
            (net urlStr (some headers)).statusCode = 302) :
    (downloadFileToDestination (fuel + 2) urlStr (some headers) net).1.get? 0 =
      some { url := urlStr, headers := some headers } ∧
    (downloadFileToDestination (fuel + 2) urlStr (some headers) net).1.get? 1 =
      some { url := (net urlStr (some headers)).location,
             headers := none } := by
  have hstep : downloadFileToDestination (fuel + 2) urlStr (some headers) net =
      ({ url := urlStr, headers := some headers } ::
        (downloadFileToDestination (fuel + 1)
          (net urlStr (some headers)).location none net).1,
       (downloadFileToDestination (fuel + 1)
          (net urlStr (some headers)).location none net).2) := by
    show downloadFileToDestination ((fuel + 1) + 1) urlStr (some headers) net = _
    unfold downloadFileToDestination
    rw [if_pos hred]
    rfl
  constructor
  · rw [hstep]
    rfl
  · rw [hstep]
    exact downloadFileToDestination_first fuel
      ((net urlStr (some headers)).location) none net

/-- Witness for C10_redirect_drops_headers with a network that
redirects any request carrying headers. -/
theorem C10_witness :
    (downloadFileToDestination 2 "https://api.github.com/repos/Microsoft/vscode-cpptools/releases"
        (some [("User-Agent", "vscode-cpptools")])
        (fun _ h => match h with
          | some _ => { statusCode := 302, location := "https://codeload.example.invalid/releases" }
          | none => { statusCode := 200, location := "" })).1.get? 1 =
      some { url := "https://codeload.example.invalid/releases", headers := none } :=
  (C10_redirect_drops_headers 0
    "https://api.github.com/repos/Microsoft/vscode-cpptools/releases"
    [("User-Agent", "vscode-cpptools")]
    (fun _ h => match h with
      | some _ => { statusCode := 302, location := "https://codeload.example.invalid/releases" }
      | none => { statusCode := 200, location := "" })
    (Or.inr rfl)).2

end Cpptools
